import Mathlib

/-!
Verification of the Predator: Badlands simulation core.

Shallow embedding of the honour/reputation economy (src/mechanics/honour.py),
the combat resolver (src/mechanics/combat.py), the Q-learning policy pieces
(src/agents/qlearning_predator.py), the grid adversary query
(src/environment/grid.py) and the adaptive adversary state machine
(src/agents/adaptive_adversary.py).

Python floats only ever appear in this code multiplied with small integers
(×0.5, ×0.85, ×1.5, ×0.1, uniform jitter); they are modelled with exact
rational/integer arithmetic: `int(x * 0.5)` becomes truncated division
`Int.tdiv x 2`, `int(x * 1.5)` becomes `Int.tdiv (x * 3) 2`, `int(x * 0.85)`
becomes `Int.tdiv (x * 85) 100` (all arguments are nonnegative at those call
sites so truncation towards zero and floor agree), and the random
`uniform(0.8, 1.2)` jitter is an explicit rational parameter.
-/

namespace Predator

/-! ### Honour system (src/mechanics/honour.py) -/

/-- Target record as consulted by `_apply_context` / `_award_honour_for_defeat`:
the dynamic class name and the optional `threat_level` attribute. -/
structure HTarget where
  className : String
  threat_level : Option Int
  deriving Repr, DecidableEq

/-- The `context` dict handed to `HonourSystem.update_honour`. -/
structure HContext where
  target : Option HTarget := none
  health : Option Int := none
  opponent_honour : Option Int := none
  deriving Repr, DecidableEq

/-- `HonourSystem.HONOUR_VALUES` table. -/
def HONOUR_VALUES : List (String × Int) :=
  [("hunt_worthy_prey", 15),
   ("hunt_unworthy_prey", -30),
   ("defeat_adversary", 100),
   ("successful_challenge", 10),
   ("failed_challenge", -5),
   ("retreat_from_combat", -10),
   ("help_wounded", 5),
   ("trophy_collected", 10),
   ("dishonourable_kill", -50),
   ("win_clan_challenge", 15),
   ("lose_clan_challenge", -5),
   ("spare_worthy_opponent", 20),
   ("fight_alongside_ally", 5)]

/-- `HONOUR_VALUES.get(action, 0)`. -/
def honourValue (action : String) : Int :=
  (((HONOUR_VALUES.find? (fun p => p.1 == action)).map Prod.snd)).getD 0

/-- `HonourSystem._apply_context`. -/
def applyContext (base : Int) (action : String) (ctx : HContext) : Int :=
  if action = "hunt_worthy_prey" ∧ ctx.target.isSome then
    match ctx.target with
    | some t =>
      if t.className = "Wildlife" then
        match t.threat_level with
        | some tl => if 1 ≤ tl then 15 + tl * 5 else -30
        | none => -30
      else if t.className = "Adversary" ∨ t.className = "AdaptiveAdversary" then
        100
      else
        15
    | none => base
  else
    let h1 :=
      if action = "retreat_from_combat" ∧ (ctx.health.getD 100) < 20 then
        Int.tdiv base 2
      else base
    if (action = "successful_challenge" ∨ action = "failed_challenge") ∧
        70 < (ctx.opponent_honour.getD 50) then
      Int.tdiv (h1 * 3) 2
    else h1

/-- `HonourSystem.update_honour` on the honour field: returns the new honour
(clamped at 0) together with the returned `honour_change` delta. -/
def updateHonour (honour : Int) (action : String) (ctx : Option HContext) :
    Int × Int :=
  let change := honourValue action
  let change :=
    match ctx with
    | some c => applyContext change action c
    | none => change
  (max 0 (honour + change), change)

/-- `HonourSystem.RANKS`, in source (ascending-threshold) order. -/
def RANKS : List (String × Int) :=
  [("Unblooded", 0), ("Blooded", 30), ("Honoured", 60),
   ("Elite", 100), ("Ancient", 150)]

/-- The lookup loop of `HonourSystem.get_rank`: first rank in the given list
whose threshold is at most the honour, defaulting to `"Unblooded"`. -/
def findRank : List (String × Int) → Int → String
  | [], _ => "Unblooded"
  | (r, t) :: rest, h => if t ≤ h then r else findRank rest h

/-- `HonourSystem.get_rank`: scan `RANKS` in reversed (descending) order. -/
def getRank (honour : Int) : String :=
  findRank RANKS.reverse honour

/-- Modelled from the spec's words, for comparison with `getRank`:
"the highest rank whose threshold is ≤ its current reputation"
(the last entry of the ascending table whose threshold is ≤ honour). -/
def specRank (honour : Int) : String :=
  ((((RANKS.filter (fun p => decide (p.2 ≤ honour)))).getLast?).map Prod.fst).getD
    "Unblooded"

/-- Folding a sequence of `update_honour` calls over a starting honour. -/
def applyHonourUpdates (h0 : Int) (updates : List (String × Option HContext)) :
    Int :=
  updates.foldl (fun h u => (updateHonour h u.1 u.2).1) h0

/-! ### Combat system (src/mechanics/combat.py)

Agents are modelled by a record carrying the dynamic class name and the
optional attributes the combat code probes with `hasattr`.  The defender's
`take_damage` is the `BaseAgent` one; the adaptive boss's override (which only
adds bookkeeping and the armor heal on top of the same health clamping) is
modelled separately below for the adversary claims. -/

structure CAgent where
  className : String
  name : String
  health : Int
  max_health : Int
  is_alive : Bool
  honour : Option Int
  stamina : Option Int
  carrying_thia : Bool := false
  threat_level : Option Int := none
  aggression_level : Option Int := none
  trophies : Option (List String) := none
  deriving Repr, DecidableEq

/-- `BaseAgent.take_damage`. -/
def takeDamage (a : CAgent) (damage : Int) : CAgent :=
  let h := a.health - damage
  if h ≤ 0 then { a with health := 0, is_alive := false }
  else { a with health := h }

/-- Python `int()` on an exact rational: truncation towards zero. -/
def pyInt (q : ℚ) : Int := Int.tdiv q.num (q.den : Int)

/-- The `base_damage` local of `CombatSystem._calculate_damage` just before the
random ±20% variance is applied (attacker bonuses and defender resistance). -/
def baseDamage (attacker defender : CAgent) : Int :=
  let bd : Int := 20
  let bd :=
    if attacker.className = "Predator" ∨ attacker.className = "QLearningPredator" then
      let bd :=
        match attacker.honour with
        | some h => bd + min 15 (h / 10)
        | none => bd
      if attacker.carrying_thia then Int.tdiv (bd * 7) 10 else bd
    else if attacker.className = "Adversary" ∨ attacker.className = "AdaptiveAdversary" then
      match attacker.aggression_level with
      | some ag => 35 + ag * 2
      | none => 35
    else if attacker.className = "Wildlife" then
      match attacker.threat_level with
      | some tl => 5 * tl
      | none => bd
    else bd
  if defender.className = "Adversary" ∨ defender.className = "AdaptiveAdversary" then
    Int.tdiv (bd * 85) 100
  else bd

/-- `CombatSystem._calculate_damage`: variance is the `uniform(0.8, 1.2)` draw. -/
def calculateDamage (attacker defender : CAgent) (variance : ℚ) : Int :=
  max 1 (pyInt ((baseDamage attacker defender : ℚ) * variance))

def toHTarget (d : CAgent) : HTarget :=
  ⟨d.className, d.threat_level⟩

/-- `HonourSystem.update_honour` applied to an agent (no-op without an
`honour` attribute), returning the reported delta. -/
def applyUpdateHonour (a : CAgent) (action : String) (ctx : Option HContext) :
    CAgent × Int :=
  match a.honour with
  | some h =>
    let p := updateHonour h action ctx
    ({ a with honour := some p.1 }, p.2)
  | none => (a, 0)

/-- `CombatSystem._award_honour_for_defeat`, returning the updated attacker and
the honour delta reported by `update_honour`. -/
def awardHonourForDefeat (attacker defender : CAgent) : CAgent × Int :=
  if defender.className = "Wildlife" then
    match defender.threat_level with
    | some tl =>
      if 1 ≤ tl then
        let p := applyUpdateHonour attacker "hunt_worthy_prey"
          (some { target := some (toHTarget defender) })
        match p.1.trophies with
        | some ts => ({ p.1 with trophies := some (ts ++ [defender.name]) }, p.2)
        | none => p
      else
        applyUpdateHonour attacker "hunt_unworthy_prey"
          (some { target := some (toHTarget defender) })
    | none =>
      applyUpdateHonour attacker "hunt_unworthy_prey"
        (some { target := some (toHTarget defender) })
  else if defender.className = "Adversary" ∨ defender.className = "AdaptiveAdversary" then
    let p := applyUpdateHonour attacker "defeat_adversary"
      (some { target := some (toHTarget defender) })
    match p.1.trophies with
    | some ts => ({ p.1 with trophies := some (ts ++ ["ULTIMATE_TROPHY_" ++ defender.name]) }, p.2)
    | none => p
  else if defender.className = "Predator" then
    applyUpdateHonour attacker "successful_challenge"
      (some { target := some (toHTarget defender),
              opponent_honour := defender.honour })
  else
    (attacker, 0)

structure CombatResult where
  success : Bool
  reason : String := ""
  damage : Int := 0
  critical : Bool := false
  defender_alive : Bool := true
  defeated : Bool := false
  deriving Repr, DecidableEq

/-- Body of `CombatSystem.resolve_combat` after the precondition checks
(damage, critical multiplier, honour award on defeat). -/
def resolveCombatCore (attacker defender : CAgent) (variance : ℚ)
    (critical : Bool) : CombatResult × CAgent × CAgent :=
  let bd := calculateDamage attacker defender variance
  let fd := if critical then Int.tdiv (bd * 3) 2 else bd
  let defender' := takeDamage defender fd
  let attacker' :=
    if ¬defender'.is_alive ∧ (attacker.className = "Predator" ∨ attacker.honour.isSome) then
      (awardHonourForDefeat attacker defender').1
    else attacker
  ({ success := true, damage := fd, critical := critical,
     defender_alive := defender'.is_alive, defeated := ¬defender'.is_alive },
   attacker', defender')

/-- `CombatSystem.resolve_combat`: liveness and stamina preconditions, then the
combat body.  The uniform variance draw and the critical roll are explicit
parameters. -/
def resolveCombat (attacker defender : CAgent) (variance : ℚ)
    (critical : Bool) : CombatResult × CAgent × CAgent :=
  if ¬attacker.is_alive ∨ ¬defender.is_alive then
    ({ success := false, reason := "One or both combatants are not alive" },
     attacker, defender)
  else
    match attacker.stamina with
    | some s =>
      if s < 10 then
        ({ success := false, reason := attacker.name ++ " is too exhausted to fight" },
         attacker, defender)
      else
        resolveCombatCore { attacker with stamina := some (s - 10) } defender
          variance critical
    | none => resolveCombatCore attacker defender variance critical

/-! ### Grid adversary query (src/environment/grid.py) and Q-learning pieces
(src/agents/qlearning_predator.py) -/

def manhattan (p q : Int × Int) : Int :=
  |p.1 - q.1| + |p.2 - q.2|

/-- An agent as seen through `environment.agents` by the grid queries and the
state discretization: dynamic class name, position, alive flag. -/
structure GAgent where
  className : String
  position : Int × Int
  is_alive : Bool
  deriving Repr, DecidableEq

/-- `Grid.get_adversary_position`: the first agent whose dynamic class name is
exactly `"Adversary"`. -/
def getAdversaryPosition (agents : List GAgent) : Option (Int × Int) :=
  (agents.find? (fun a => a.className == "Adversary")).map (fun a => a.position)

/-- The vitals of a `QLearningPredator` read by `_get_state_representation`. -/
structure PredState where
  position : Int × Int
  health : Int
  stamina : Int
  honour : Int
  deriving Repr, DecidableEq

/-- `QLearningPredator._count_nearby_wildlife`. -/
def countNearbyWildlife (p : PredState) (agents : List GAgent) : Nat :=
  (agents.filter (fun a => a.className == "Wildlife" && a.is_alive &&
    decide (manhattan p.position a.position ≤ 5))).length

def healthLevel (p : PredState) : String :=
  if 70 < p.health then "high" else if 40 < p.health then "medium" else "low"

def staminaLevel (p : PredState) : String :=
  if 60 < p.stamina then "high" else if 30 < p.stamina then "medium" else "low"

def honourLevel (p : PredState) : String :=
  if 80 ≤ p.honour then "elite"
  else if 50 ≤ p.honour then "ready"
  else if 30 ≤ p.honour then "blooded"
  else "low"

def wildlifeLevel (p : PredState) (agents : List GAgent) : String :=
  let n := countNearbyWildlife p agents
  if 3 ≤ n then "many" else if 1 ≤ n then "some" else "none"

/-- The boss-proximity component of `_get_state_representation`, fed by
`Grid.get_adversary_position`. -/
def adversaryLevel (p : PredState) (agents : List GAgent) : String :=
  match getAdversaryPosition agents with
  | some ap =>
    let d := manhattan p.position ap
    if d ≤ 3 then "close" else if d ≤ 8 then "near" else "far"
  | none => "none"

/-- `QLearningPredator._get_state_representation`. -/
def getStateRepresentation (p : PredState) (agents : List GAgent) : String :=
  healthLevel p ++ "_" ++ staminaLevel p ++ "_" ++ honourLevel p ++ "_" ++
    wildlifeLevel p agents ++ "_" ++ adversaryLevel p agents

/-- `QLearningPredator.decay_epsilon` with the default `decay_rate=0.995` and
the 0.05 floor. -/
def decayEpsilon (e : ℚ) : ℚ :=
  max (1/20) (e * (199/200))

/-- `decay_epsilon` applied `n` times. -/
def decayIter : Nat → ℚ → ℚ
  | 0, e => e
  | n + 1, e => decayEpsilon (decayIter n e)

/-! ### Adaptive adversary (src/agents/adversary.py, adaptive_adversary.py)

The boss is a record of the fields touched by `decide_action`, `take_damage`
and their helpers.  `environment` only enters `decide_action` through
`_find_nearest_predator`, modelled as an `Option` position parameter, and
through the patrol randomness, modelled as explicit random draws.
`preferred_attack_direction` is `None` forever (it is never assigned after
`__init__`), so `_calculate_adaptive_direction` always falls through to
`_calculate_direction` and the field is omitted. -/

structure AttackRecord where
  damage : Int
  health_after : Int
  retreated : Bool
  deriving Repr, DecidableEq

structure BossState where
  position : Int × Int
  health : Int
  max_health : Int
  is_alive : Bool
  threat_radius : Int
  aggression_level : Int
  attack_power : Int
  movement_pattern : String
  patrol_route : List (Int × Int)
  current_patrol_index : Nat
  attack_pattern_memory : List AttackRecord
  predator_position_history : List (Int × Int)
  detected_circle : Nat
  detected_hitrun : Nat
  berserker_rage : Bool
  predictive_movement : Bool
  area_denial : Bool
  adaptive_armor : Bool
  chase_aggressiveness : ℚ
  total_damage_received : Int
  combat_encounters : Nat
  times_attacked : Nat
  defended_successfully : Nat
  deriving Repr, DecidableEq

/-- `AdaptiveAdversary.__init__` (via `Adversary.__init__`). -/
def initBoss (position : Int × Int) (health : Int) (threat_radius : Int) :
    BossState :=
  { position := position, health := health, max_health := health,
    is_alive := true, threat_radius := threat_radius, aggression_level := 5,
    attack_power := 30, movement_pattern := "patrol",
    patrol_route := [(position.1 - 2, position.2 - 2), (position.1 + 2, position.2 - 2),
                     (position.1 + 2, position.2 + 2), (position.1 - 2, position.2 + 2)],
    current_patrol_index := 0, attack_pattern_memory := [],
    predator_position_history := [], detected_circle := 0, detected_hitrun := 0,
    berserker_rage := false, predictive_movement := false, area_denial := false,
    adaptive_armor := false, chase_aggressiveness := 1,
    total_damage_received := 0, combat_encounters := 0, times_attacked := 0,
    defended_successfully := 0 }

/-- `collections.deque(maxlen=n)` append. -/
def appendBounded (maxlen : Nat) (xs : List α) (x : α) : List α :=
  let ys := xs ++ [x]
  ys.drop (ys.length - maxlen)

/-- Python `xs[-n:]`. -/
def lastN (n : Nat) (xs : List α) : List α :=
  xs.drop (xs.length - n)

/-- First unlock statement of `_update_combat_intelligence`. -/
def uciBerserk (s : BossState) : BossState :=
  if 10 ≤ s.times_attacked ∧ ¬s.berserker_rage then
    { s with berserker_rage := true } else s

/-- Second unlock statement of `_update_combat_intelligence`. -/
def uciPredictive (s : BossState) : BossState :=
  if 15 ≤ s.times_attacked ∧ ¬s.predictive_movement then
    { s with predictive_movement := true } else s

/-- Third unlock statement of `_update_combat_intelligence` (also widens the
threat radius). -/
def uciArea (s : BossState) : BossState :=
  if 20 ≤ s.times_attacked ∧ ¬s.area_denial then
    { s with area_denial := true, threat_radius := s.threat_radius + 3 } else s

/-- Fourth unlock statement of `_update_combat_intelligence`. -/
def uciArmor (s : BossState) : BossState :=
  if 200 ≤ s.total_damage_received ∧ ¬s.adaptive_armor then
    { s with adaptive_armor := true } else s

/-- Chase-aggressiveness tuning of `_update_combat_intelligence`. -/
def uciTune (s : BossState) : BossState :=
  if 5 < s.times_attacked then
    let rate : ℚ := (s.defended_successfully : ℚ) / (s.times_attacked : ℚ)
    if 7/10 < rate then
      { s with chase_aggressiveness := min (3/2) (s.chase_aggressiveness + 1/10) }
    else if rate < 3/10 then
      { s with chase_aggressiveness := max (7/10) (s.chase_aggressiveness - 1/10) }
    else s
  else s

/-- `AdaptiveAdversary._update_combat_intelligence`: the four unlock
statements in source order, then the aggressiveness tuning (the unlock
announcements are prints). -/
def updateCombatIntelligence (s : BossState) : BossState :=
  uciTune (uciArmor (uciArea (uciPredictive (uciBerserk s))))

/-- The `distances` list of `_detect_circle_strategy`. -/
def circleDistances (s : BossState) : List Int :=
  (lastN 10 s.predator_position_history).map (fun p => manhattan s.position p)

/-- `avg_distance` of `_detect_circle_strategy`. -/
def circleAvg (s : BossState) : ℚ :=
  ((circleDistances s).sum : ℚ) / ((circleDistances s).length : ℚ)

/-- `distance_variance` of `_detect_circle_strategy`. -/
def circleVar (s : BossState) : ℚ :=
  ((circleDistances s).map (fun d => ((d : ℚ) - circleAvg s) ^ 2)).sum /
    ((circleDistances s).length : ℚ)

/-- `AdaptiveAdversary._detect_circle_strategy`. -/
def detectCircle (s : BossState) : BossState × Bool :=
  if s.predator_position_history.length < 10 then (s, false)
  else if circleVar s < 4 ∧ 3 < circleAvg s ∧ circleAvg s < 7 then
    let s := { s with detected_circle := s.detected_circle + 1 }
    if 3 ≤ s.detected_circle then (s, true) else (s, false)
  else (s, false)

/-- `AdaptiveAdversary._detect_hit_and_run`. -/
def detectHitRun (s : BossState) : BossState × Bool :=
  if s.attack_pattern_memory.length < 5 then (s, false)
  else if 3 ≤ ((lastN 5 s.attack_pattern_memory).filter
      (fun r => r.retreated)).length then
    let s := { s with detected_hitrun := s.detected_hitrun + 1 }
    if 2 ≤ s.detected_hitrun then (s, true) else (s, false)
  else (s, false)

/-- `AdaptiveAdversary._predict_next_position`: extrapolate the vector from the
3rd-to-last to the most recent recorded position. -/
def predictNext (s : BossState) (targetPos : Int × Int) : Option (Int × Int) :=
  if s.predator_position_history.length < 3 then none
  else
    let ps := lastN 3 s.predator_position_history
    let p0 := ps.headD (0, 0)
    let p2 := (ps.getLast?).getD (0, 0)
    some (targetPos.1 + (p2.1 - p0.1), targetPos.2 + (p2.2 - p0.2))

/-- `Adversary._calculate_direction`. -/
def calcDirection (fromPos toPos : Int × Int) : String :=
  let dx := toPos.1 - fromPos.1
  let dy := toPos.2 - fromPos.2
  if |dy| < |dx| then (if 0 < dx then "E" else "W")
  else if |dx| < |dy| then (if 0 < dy then "S" else "N")
  else if 0 < dx ∧ 0 < dy then "SE"
  else if 0 < dx ∧ dy < 0 then "NE"
  else if dx < 0 ∧ 0 < dy then "SW"
  else "NW"

/-- `AdaptiveAdversary._calculate_aggressive_direction`. -/
def aggressiveDirection (fromPos toPos : Int × Int) : String :=
  let dx := toPos.1 - fromPos.1
  let dy := toPos.2 - fromPos.2
  if 0 < |dx| ∧ 0 < |dy| then
    if 0 < dx ∧ 0 < dy then "SE"
    else if 0 < dx ∧ dy < 0 then "NE"
    else if dx < 0 ∧ 0 < dy then "SW"
    else "NW"
  else calcDirection fromPos toPos

inductive BAction
  | attack (target : Int × Int)
  | move (direction : String)
  deriving Repr, DecidableEq

/-- Which branch of `AdaptiveAdversary.decide_action` produced the decision
(observable instrumentation of the source's control flow). -/
inductive BBranch
  | counterCircle | counterHitRun | berserker | predictive | attackStd
  | chase | patrol
  deriving Repr, DecidableEq

/-- `AdaptiveAdversary._counter_circle_strategy` (a non-`None` predicted tuple
is always truthy). -/
def counterCircleStrategy (s : BossState) (targetPos : Int × Int) : BAction :=
  match predictNext s targetPos with
  | some pp => BAction.move (calcDirection s.position pp)
  | none => BAction.move (calcDirection s.position targetPos)

/-- `AdaptiveAdversary._counter_hit_and_run`. -/
def counterHitRunStrategy (s : BossState) (targetPos : Int × Int) :
    BossState × BAction :=
  let s := { s with threat_radius := min 15 (s.threat_radius + 2) }
  if manhattan s.position targetPos ≤ 2 then (s, BAction.attack targetPos)
  else (s, BAction.move (aggressiveDirection s.position targetPos))

/-- `AdaptiveAdversary._execute_berserker_rage`. -/
def executeBerserkerRage (s : BossState) (targetPos : Int × Int) :
    BossState × BAction :=
  ({ s with attack_power := Int.tdiv (s.attack_power * 3) 2 },
   BAction.attack targetPos)

/-- `AdaptiveAdversary._predictive_attack`. -/
def predictiveAttack (s : BossState) (targetPos : Int × Int) : BAction :=
  match predictNext s targetPos with
  | some pp =>
    if manhattan s.position pp ≤ 2 then BAction.move (calcDirection s.position pp)
    else BAction.attack targetPos
  | none => BAction.attack targetPos

/-- `AdaptiveAdversary._get_adaptive_patrol_direction`; `randJitter` is the
`random.random()` draw, `randIdx` the `random.randint` draw (taken mod the
route length) and `randDir` the `random.choice` fallback for an empty route. -/
def adaptivePatrol (s : BossState) (randJitter : ℚ) (randIdx : Nat)
    (randDir : String) : BossState × String :=
  match s.patrol_route with
  | [] => (s, randDir)
  | _ =>
    let target := s.patrol_route.getD s.current_patrol_index (0, 0)
    if s.position = target then
      let idx := if randJitter < 3/10 then randIdx % s.patrol_route.length
        else (s.current_patrol_index + 1) % s.patrol_route.length
      let s := { s with current_patrol_index := idx }
      (s, calcDirection s.position (s.patrol_route.getD idx (0, 0)))
    else (s, calcDirection s.position target)

/-- `AdaptiveAdversary.decide_action`: the nearest predator reading is an
`Option` position; the returned `BBranch` records which source branch fired. -/
def decideAction (s0 : BossState) (nearestPred : Option (Int × Int))
    (randJitter : ℚ) (randIdx : Nat) (randDir : String) :
    BossState × BAction × BBranch :=
  let s := updateCombatIntelligence s0
  match nearestPred with
  | some tp =>
    let hist := appendBounded 30 s.predator_position_history tp
    let s := { s with predator_position_history := hist }
    let d := manhattan s.position tp
    let pc := detectCircle s
    if pc.2 then (pc.1, counterCircleStrategy pc.1 tp, BBranch.counterCircle)
    else
      let ph := detectHitRun pc.1
      if ph.2 then
        let p := counterHitRunStrategy ph.1 tp
        (p.1, p.2, BBranch.counterHitRun)
      else
        let s := ph.1
        if s.berserker_rage ∧ s.health < 200 then
          let p := executeBerserkerRage s tp
          (p.1, p.2, BBranch.berserker)
        else if s.predictive_movement then
          (s, predictiveAttack s tp, BBranch.predictive)
        else if d ≤ 1 then
          ({ s with combat_encounters := s.combat_encounters + 1 },
           BAction.attack tp, BBranch.attackStd)
        else if (d : ℚ) ≤ (s.threat_radius : ℚ) * s.chase_aggressiveness then
          ({ s with movement_pattern := "chase" },
           BAction.move (calcDirection s.position tp), BBranch.chase)
        else
          let p := adaptivePatrol { s with movement_pattern := "patrol" }
            randJitter randIdx randDir
          (p.1, BAction.move p.2, BBranch.patrol)
  | none =>
    let p := adaptivePatrol { s with movement_pattern := "patrol" }
      randJitter randIdx randDir
    (p.1, BAction.move p.2, BBranch.patrol)

/-- `Adversary.take_damage` (`BaseAgent.take_damage` plus defense tracking). -/
def adversaryTakeDamage (s : BossState) (damage : Int) : BossState :=
  let h := s.health - damage
  let s := if h ≤ 0 then { s with health := 0, is_alive := false }
    else { s with health := h }
  let s := { s with times_attacked := s.times_attacked + 1 }
  if s.is_alive then
    { s with defended_successfully := s.defended_successfully + 1,
             aggression_level := min 10 (s.aggression_level + 1),
             threat_radius := min 10 (s.threat_radius + 1) }
  else s

/-- `AdaptiveAdversary.take_damage`: damage tracking, the attack-pattern record
(always created with `retreated = False`), and the adaptive-armor heal. -/
def adaptiveTakeDamage (s : BossState) (damage : Int) : BossState :=
  let original := s.health
  let s := adversaryTakeDamage s damage
  let actual := original - s.health
  let mem := appendBounded 20 s.attack_pattern_memory ⟨actual, s.health, false⟩
  let s := { s with total_damage_received := s.total_damage_received + actual,
                    attack_pattern_memory := mem }
  if s.adaptive_armor then
    { s with health := min s.max_health (s.health + Int.tdiv actual 10) }
  else s

/-- `BaseAgent.heal` on the boss. -/
def bossHeal (s : BossState) (amount : Int) : BossState :=
  { s with health := min (s.health + amount) s.max_health }

/-- The operations that touch a boss during a run: incoming damage events,
heals, and decision ticks. -/
inductive BossOp
  | damage (d : Int)
  | heal (a : Int)
  | decide (nearestPred : Option (Int × Int)) (randJitter : ℚ) (randIdx : Nat)
      (randDir : String)

def applyBossOp (s : BossState) : BossOp → BossState
  | .damage d => adaptiveTakeDamage s d
  | .heal a => bossHeal s a
  | .decide np rj ri rd => (decideAction s np rj ri rd).1

/-- A reachable boss state: any operation sequence applied to a state. -/
def runBoss (s : BossState) (ops : List BossOp) : BossState :=
  ops.foldl applyBossOp s

/-! ### Concrete scenario inputs -/

/-- The learner of the C3 scenario: reputation 100, stamina 50, unencumbered. -/
def dek : CAgent :=
  { className := "QLearningPredator", name := "Dek", health := 100,
    max_health := 100, is_alive := true, honour := some 100,
    stamina := some 50, trophies := some [] }

/-- A boss-archetype defender with the default aggression level 5. -/
def beast : CAgent :=
  { className := "AdaptiveAdversary", name := "The Great Beast", health := 500,
    max_health := 500, is_alive := true, honour := none, stamina := none,
    aggression_level := some 5 }

/-- A tier-1 wildlife defender just brought to zero health. -/
def creature1 : CAgent :=
  { className := "Wildlife", name := "Creature_1", health := 0,
    max_health := 30, is_alive := false, honour := none, stamina := none,
    threat_level := some 1 }

/-- A dead attacker, an exhausted attacker and a live defender for the combat
precondition scenarios. -/
def deadDek : CAgent := { dek with health := 0, is_alive := false }

def tiredDek : CAgent := { dek with stamina := some 5 }

/-- The discretization scenario: a healthy, ready predator at the origin. -/
def c2Pred : PredState := { position := (0, 0), health := 100, stamina := 100, honour := 60 }

/-- An environment whose only boss is the adaptive variant, two cells away. -/
def c2Agents : List GAgent := [⟨"AdaptiveAdversary", (2, 0), true⟩]

/-- A boss mid-fight with Berserker Rage unlocked and health below 200. -/
def berserkBoss : BossState :=
  { initBoss (0, 0) 500 5 with
    health := 150, berserker_rage := true,
    times_attacked := 12, defended_successfully := 6 }

/-- A boss whose opponent has stayed at Manhattan distance 5 for the last nine
recorded ticks, with two circling detections already counted. -/
def circledBoss : BossState :=
  { initBoss (0, 0) 500 5 with
    predator_position_history := List.replicate 9 ((5, 0) : Int × Int),
    detected_circle := 2 }

/-- The circling boss's state as seen by the detector on the next decision:
combat intelligence updated and the fresh distance-5 reading appended. -/
def circledTick : BossState :=
  { updateCombatIntelligence circledBoss with
    predator_position_history :=
      appendBounded 30
        (updateCombatIntelligence circledBoss).predator_position_history
        (5, 0) }

/-- A boss with Adaptive Armor unlocked whose health has been worn down to 5. -/
def wornBoss : BossState :=
  { initBoss (0, 0) 500 5 with
    health := 5, adaptive_armor := true,
    total_damage_received := 495 }

/-- A boss with Adaptive Armor unlocked and 200 health left. -/
def armoredBoss : BossState :=
  { initBoss (0, 0) 500 5 with
    health := 200, adaptive_armor := true,
    total_damage_received := 300 }

/-! ### Helper lemmas -/

theorem getRank_eq_specRank (h : Int) (hh : 0 ≤ h) : getRank h = specRank h := by
  rcases le_or_lt 150 h with h150 | h150
  · have h30 : (30 : Int) ≤ h := by omega
    have h60 : (60 : Int) ≤ h := by omega
    have h100 : (100 : Int) ≤ h := by omega
    simp [getRank, findRank, specRank, RANKS, hh, h30, h60, h100, h150]
  · rcases le_or_lt 100 h with h100 | h100
    · have h30 : (30 : Int) ≤ h := by omega
      have h60 : (60 : Int) ≤ h := by omega
      simp [getRank, findRank, specRank, RANKS, hh, h30, h60, h100,
        not_le.mpr h150]
    · rcases le_or_lt 60 h with h60 | h60
      · have h30 : (30 : Int) ≤ h := by omega
        simp [getRank, findRank, specRank, RANKS, hh, h30, h60,
          not_le.mpr h150, not_le.mpr h100]
      · rcases le_or_lt 30 h with h30 | h30
        · simp [getRank, findRank, specRank, RANKS, hh, h30,
            not_le.mpr h150, not_le.mpr h100, not_le.mpr h60]
        · simp [getRank, findRank, specRank, RANKS, hh,
            not_le.mpr h150, not_le.mpr h100, not_le.mpr h60, not_le.mpr h30]

theorem applyHonourUpdates_nonneg (h0 : Int)
    (us : List (String × Option HContext)) (hh : 0 ≤ h0) :
    0 ≤ applyHonourUpdates h0 us := by
  induction us generalizing h0 with
  | nil => exact hh
  | cons u rest ih =>
    have : 0 ≤ (updateHonour h0 u.1 u.2).1 := le_max_left 0 _
    simpa [applyHonourUpdates] using ih _ this

theorem decayIter_succ_closed (e : ℚ) :
    ∀ m : ℕ, decayIter (m + 1) e = max (1/20) (e * (199/200) ^ (m + 1))
  | 0 => by simp [decayIter, decayEpsilon]
  | m + 1 => by
    have ih := decayIter_succ_closed e m
    show decayEpsilon (decayIter (m + 1) e) = _
    rw [ih, decayEpsilon,
      max_mul_of_nonneg _ _ (by norm_num : (0:ℚ) ≤ 199/200), ← max_assoc,
      max_eq_left (by norm_num : (1/20 : ℚ) * (199/200) ≤ 1/20),
      mul_assoc, ← pow_succ]

theorem awardHonour_stamina (a d : CAgent) :
    (awardHonourForDefeat a d).1.stamina = a.stamina := by
  unfold awardHonourForDefeat applyUpdateHonour
  rcases hh : a.honour with _ | h <;> rcases ht : d.threat_level with _ | t <;>
      rcases hty : a.trophies with _ | ts <;>
    (try simp only [hh, ht, hty]) <;> (try split_ifs) <;> simp_all

theorem one_le_tdiv_three_halves (b : Int) (h : 1 ≤ b) :
    1 ≤ Int.tdiv (b * 3) 2 := by
  rw [Int.tdiv_eq_ediv (by omega) (by omega)]
  omega

theorem resolveCombatCore_success (a b : CAgent) (v : ℚ) (c : Bool) :
    (resolveCombatCore a b v c).1.success = true := rfl

theorem resolveCombatCore_damage (a b : CAgent) (v : ℚ) (c : Bool) :
    (resolveCombatCore a b v c).1.damage =
      if c then Int.tdiv (calculateDamage a b v * 3) 2
      else calculateDamage a b v := rfl

theorem resolveCombatCore_attacker_stamina (a b : CAgent) (v : ℚ) (c : Bool) :
    (resolveCombatCore a b v c).2.1.stamina = a.stamina := by
  unfold resolveCombatCore
  dsimp only
  split_ifs <;> first
    | exact awardHonour_stamina a _
    | rfl

theorem one_le_resolveCombatCore_damage (a b : CAgent) (v : ℚ) (c : Bool) :
    1 ≤ (resolveCombatCore a b v c).1.damage := by
  rw [resolveCombatCore_damage]
  have h1 : 1 ≤ calculateDamage a b v := le_max_left 1 _
  cases c with
  | false => simpa using h1
  | true => simpa using one_le_tdiv_three_halves _ h1

theorem uciBerserk_alive (s : BossState) :
    (uciBerserk s).is_alive = s.is_alive := by
  unfold uciBerserk; split_ifs <;> rfl

theorem uciPredictive_alive (s : BossState) :
    (uciPredictive s).is_alive = s.is_alive := by
  unfold uciPredictive; split_ifs <;> rfl

theorem uciArea_alive (s : BossState) :
    (uciArea s).is_alive = s.is_alive := by
  unfold uciArea; split_ifs <;> rfl

theorem uciArmor_alive (s : BossState) :
    (uciArmor s).is_alive = s.is_alive := by
  unfold uciArmor; split_ifs <;> rfl

theorem uciTune_alive (s : BossState) :
    (uciTune s).is_alive = s.is_alive := by
  unfold uciTune
  dsimp only
  split_ifs <;> rfl

theorem uci_alive (s : BossState) :
    (updateCombatIntelligence s).is_alive = s.is_alive := by
  simp [updateCombatIntelligence, uciTune_alive, uciArmor_alive, uciArea_alive,
    uciPredictive_alive, uciBerserk_alive]

theorem uciBerserk_memory (s : BossState) :
    (uciBerserk s).attack_pattern_memory = s.attack_pattern_memory := by
  unfold uciBerserk; split_ifs <;> rfl

theorem uciPredictive_memory (s : BossState) :
    (uciPredictive s).attack_pattern_memory = s.attack_pattern_memory := by
  unfold uciPredictive; split_ifs <;> rfl

theorem uciArea_memory (s : BossState) :
    (uciArea s).attack_pattern_memory = s.attack_pattern_memory := by
  unfold uciArea; split_ifs <;> rfl

theorem uciArmor_memory (s : BossState) :
    (uciArmor s).attack_pattern_memory = s.attack_pattern_memory := by
  unfold uciArmor; split_ifs <;> rfl

theorem uciTune_memory (s : BossState) :
    (uciTune s).attack_pattern_memory = s.attack_pattern_memory := by
  unfold uciTune
  dsimp only
  split_ifs <;> rfl

theorem uci_memory (s : BossState) :
    (updateCombatIntelligence s).attack_pattern_memory =
      s.attack_pattern_memory := by
  simp [updateCombatIntelligence, uciTune_memory, uciArmor_memory,
    uciArea_memory, uciPredictive_memory, uciBerserk_memory]

theorem detectCircle_fst_alive (s : BossState) :
    (detectCircle s).1.is_alive = s.is_alive := by
  unfold detectCircle
  dsimp only
  split_ifs <;> rfl

theorem detectCircle_fst_memory (s : BossState) :
    (detectCircle s).1.attack_pattern_memory = s.attack_pattern_memory := by
  unfold detectCircle
  dsimp only
  split_ifs <;> rfl

theorem detectHitRun_fst_alive (s : BossState) :
    (detectHitRun s).1.is_alive = s.is_alive := by
  unfold detectHitRun
  dsimp only
  split_ifs <;> rfl

theorem detectHitRun_fst_memory (s : BossState) :
    (detectHitRun s).1.attack_pattern_memory = s.attack_pattern_memory := by
  unfold detectHitRun
  dsimp only
  split_ifs <;> rfl

theorem counterHitRun_fst_alive (s : BossState) (tp : Int × Int) :
    (counterHitRunStrategy s tp).1.is_alive = s.is_alive := by
  unfold counterHitRunStrategy
  dsimp only
  split_ifs <;> rfl

theorem counterHitRun_fst_memory (s : BossState) (tp : Int × Int) :
    (counterHitRunStrategy s tp).1.attack_pattern_memory =
      s.attack_pattern_memory := by
  unfold counterHitRunStrategy
  dsimp only
  split_ifs <;> rfl

theorem berserk_fst_alive (s : BossState) (tp : Int × Int) :
    (executeBerserkerRage s tp).1.is_alive = s.is_alive := rfl

theorem berserk_fst_memory (s : BossState) (tp : Int × Int) :
    (executeBerserkerRage s tp).1.attack_pattern_memory =
      s.attack_pattern_memory := rfl

theorem patrol_fst_alive (s : BossState) (rj : ℚ) (ri : Nat) (rd : String) :
    (adaptivePatrol s rj ri rd).1.is_alive = s.is_alive := by
  unfold adaptivePatrol
  rcases hr : s.patrol_route with _ | ⟨p, ps⟩
  · simp [hr]
  · simp only [hr]
    split_ifs <;> rfl

theorem patrol_fst_memory (s : BossState) (rj : ℚ) (ri : Nat) (rd : String) :
    (adaptivePatrol s rj ri rd).1.attack_pattern_memory =
      s.attack_pattern_memory := by
  unfold adaptivePatrol
  rcases hr : s.patrol_route with _ | ⟨p, ps⟩
  · simp [hr]
  · simp only [hr]
    split_ifs <;> rfl

theorem decideAction_fst_alive (s : BossState) (np : Option (Int × Int))
    (rj : ℚ) (ri : Nat) (rd : String) :
    (decideAction s np rj ri rd).1.is_alive = s.is_alive := by
  unfold decideAction
  cases np <;> dsimp only <;> (try split_ifs) <;>
    simp [uci_alive, detectCircle_fst_alive, detectHitRun_fst_alive,
      counterHitRun_fst_alive, berserk_fst_alive, patrol_fst_alive]

theorem decideAction_fst_memory (s : BossState) (np : Option (Int × Int))
    (rj : ℚ) (ri : Nat) (rd : String) :
    (decideAction s np rj ri rd).1.attack_pattern_memory =
      s.attack_pattern_memory := by
  unfold decideAction
  cases np <;> dsimp only <;> (try split_ifs) <;>
    simp [uci_memory, detectCircle_fst_memory, detectHitRun_fst_memory,
      counterHitRun_fst_memory, berserk_fst_memory, patrol_fst_memory]

theorem mem_of_mem_appendBounded {α : Type} {n : Nat} {xs : List α} {x y : α}
    (h : y ∈ appendBounded n xs x) : y ∈ xs ∨ y = x := by
  unfold appendBounded at h
  have := List.mem_of_mem_drop h
  simpa using this

/-- Every record of the boss's attack-pattern memory has `retreated = false`. -/
def memClean (s : BossState) : Prop :=
  ∀ r ∈ s.attack_pattern_memory, r.retreated = false

theorem adaptiveTakeDamage_memClean (s : BossState) (d : Int)
    (h : memClean s) : memClean (adaptiveTakeDamage s d) := by
  unfold memClean adaptiveTakeDamage adversaryTakeDamage
  dsimp only
  split_ifs <;> intro r hr <;>
    rcases mem_of_mem_appendBounded hr with h1 | h1 <;>
      first
        | exact h r h1
        | simp [h1]

theorem adaptiveTakeDamage_dead (s : BossState) (d : Int)
    (h : s.is_alive = false) : (adaptiveTakeDamage s d).is_alive = false := by
  unfold adaptiveTakeDamage adversaryTakeDamage
  dsimp only
  split_ifs <;> simp_all

theorem applyBossOp_dead (s : BossState) (op : BossOp)
    (h : s.is_alive = false) : (applyBossOp s op).is_alive = false := by
  cases op with
  | damage d => exact adaptiveTakeDamage_dead s d h
  | heal a => simpa [applyBossOp, bossHeal] using h
  | decide np rj ri rd => simpa [applyBossOp, decideAction_fst_alive] using h

theorem runBoss_dead (s : BossState) (ops : List BossOp)
    (h : s.is_alive = false) : (runBoss s ops).is_alive = false := by
  induction ops generalizing s with
  | nil => exact h
  | cons op rest ih => exact ih _ (applyBossOp_dead s op h)

theorem applyBossOp_memClean (s : BossState) (op : BossOp)
    (h : memClean s) : memClean (applyBossOp s op) := by
  cases op with
  | damage d => exact adaptiveTakeDamage_memClean s d h
  | heal a => exact fun r hr => h r hr
  | decide np rj ri rd =>
    intro r hr
    simp only [applyBossOp, decideAction_fst_memory] at hr
    exact h r hr

theorem runBoss_memClean (s : BossState) (ops : List BossOp)
    (h : memClean s) : memClean (runBoss s ops) := by
  induction ops generalizing s with
  | nil => exact h
  | cons op rest ih => exact ih _ (applyBossOp_memClean s op h)

theorem mem_of_mem_lastN {α : Type} {n : Nat} {xs : List α} {x : α}
    (h : x ∈ lastN n xs) : x ∈ xs :=
  List.mem_of_mem_drop h

theorem hitrun_count_zero (s : BossState) (h : memClean s) :
    ((lastN 5 s.attack_pattern_memory).filter
      (fun r => r.retreated)).length = 0 := by
  have hnil : (lastN 5 s.attack_pattern_memory).filter
      (fun r => r.retreated) = [] := by
    rw [List.filter_eq_nil_iff]
    intro r hr
    simp [h r (mem_of_mem_lastN hr)]
  rw [hnil]
  rfl

theorem detectHitRun_clean (s : BossState) (h : memClean s) :
    detectHitRun s = (s, false) := by
  have hc := hitrun_count_zero s h
  unfold detectHitRun
  dsimp only
  split_ifs with h5 h3 h2 <;> first | rfl | omega

theorem uci_memClean (s : BossState) (h : memClean s) :
    memClean (updateCombatIntelligence s) := by
  intro r hr
  rw [uci_memory] at hr
  exact h r hr

theorem detectCircle_memClean (s : BossState) (h : memClean s) :
    memClean (detectCircle s).1 := by
  intro r hr
  rw [detectCircle_fst_memory] at hr
  exact h r hr

theorem decideAction_no_hitrun (s : BossState) (h : memClean s)
    (np : Option (Int × Int)) (rj : ℚ) (ri : Nat) (rd : String) :
    (decideAction s np rj ri rd).2.2 ≠ BBranch.counterHitRun := by
  unfold decideAction
  cases np with
  | none => simp
  | some tp =>
    have hcleanX : memClean { updateCombatIntelligence s with
        predator_position_history :=
          appendBounded 30 (updateCombatIntelligence s).predator_position_history tp } :=
      fun r hr => uci_memClean s h r hr
    have hdr := detectHitRun_clean _ (detectCircle_memClean _ hcleanX)
    dsimp only
    rw [hdr]
    dsimp only
    split_ifs <;> simp_all

theorem uci_id_of (s : BossState) (ht : s.times_attacked = 12)
    (hd : s.defended_successfully = 6) (hb : s.berserker_rage = true)
    (hr : s.total_damage_received < 200) :
    updateCombatIntelligence s = s := by
  have e1 : uciBerserk s = s := by
    unfold uciBerserk
    rw [if_neg]
    simp [hb]
  have e2 : uciPredictive s = s := by
    unfold uciPredictive
    rw [if_neg]
    simp [ht]
  have e3 : uciArea s = s := by
    unfold uciArea
    rw [if_neg]
    simp [ht]
  have e4 : uciArmor s = s := by
    unfold uciArmor
    rw [if_neg]
    simp [show ¬200 ≤ s.total_damage_received by omega]
  have e5 : uciTune s = s := by
    unfold uciTune
    rw [if_pos (by omega : 5 < s.times_attacked)]
    dsimp only
    rw [ht, hd, if_neg (by norm_num), if_neg (by norm_num)]
  simp [updateCombatIntelligence, e1, e2, e3, e4, e5]

/-! ### Claim theorems -/

/-- C1: starting from a nonnegative reputation, every sequence of
`update_honour` calls leaves the reputation nonnegative, and the rank computed
by `get_rank` is exactly the highest rank of the ordered table whose threshold
is at most the current reputation. -/
theorem honour_nonneg_and_rank_invariant (h0 : Int)
    (us : List (String × Option HContext)) (hh : 0 ≤ h0) :
    0 ≤ applyHonourUpdates h0 us ∧
    getRank (applyHonourUpdates h0 us) = specRank (applyHonourUpdates h0 us) := by
  have hn := applyHonourUpdates_nonneg h0 us hh
  exact ⟨hn, getRank_eq_specRank _ hn⟩

/-- Witness for C1: a fresh combatant hunting tier-2 worthy prey ends at
reputation 25 with matching code and spec ranks. -/
theorem honour_nonneg_and_rank_invariant_witness :
    (0 : Int) ≤ 0 ∧
    applyHonourUpdates 0
      [("hunt_worthy_prey", some { target := some ⟨"Wildlife", some 2⟩ })] = 25 ∧
    (0 ≤ applyHonourUpdates 0
        [("hunt_worthy_prey", some { target := some ⟨"Wildlife", some 2⟩ })] ∧
      getRank (applyHonourUpdates 0
        [("hunt_worthy_prey", some { target := some ⟨"Wildlife", some 2⟩ })]) =
      specRank (applyHonourUpdates 0
        [("hunt_worthy_prey", some { target := some ⟨"Wildlife", some 2⟩ })])) :=
  ⟨le_refl 0, by decide, honour_nonneg_and_rank_invariant 0 _ (le_refl 0)⟩

/-- C2 (code bug evidence): with the standard simulation's adaptive boss two
cells from the predator, `get_adversary_position` finds no adversary (it
matches the class name `"Adversary"` exactly), so the boss-proximity component
reads `"none"` instead of `"close"`; the exact-named variant at the same spot
reads `"close"`. -/
theorem adaptive_boss_proximity_reads_none :
    manhattan c2Pred.position (2, 0) = 2 ∧
    getAdversaryPosition c2Agents = none ∧
    adversaryLevel c2Pred c2Agents = "none" ∧
    getStateRepresentation c2Pred c2Agents = "high_high_ready_none_none" ∧
    adversaryLevel c2Pred [⟨"Adversary", (2, 0), true⟩] = "close" := by
  decide

/-- C7 counterexample: with zero decay applications and an initial rate below
the 0.05 floor, the code leaves the rate unchanged while the claimed closed
form already lifts it to the floor. -/
theorem epsilon_decay_counterexample :
    decayIter 0 (1/100) = 1/100 ∧
    max (1/20 : ℚ) ((1/100) * (199/200) ^ (0 : ℕ)) = 1/20 ∧
    (1/100 : ℚ) ≠ 1/20 := by
  refine ⟨rfl, ?_, by norm_num⟩
  rw [pow_zero, mul_one]
  exact max_eq_left (by norm_num)

/-- C7 amended: after at least one application of `decay_epsilon` with the
default rate, the exploration rate equals max(0.05, ε₀·0.995^N) exactly (with
zero applications it is ε₀ itself). -/
theorem epsilon_decay_law (e : ℚ) (n : ℕ) (hn : 1 ≤ n) :
    decayIter n e = max (1/20) (e * (199/200) ^ n) := by
  obtain ⟨m, rfl⟩ : ∃ m, n = m + 1 := ⟨n - 1, by omega⟩
  exact decayIter_succ_closed e m

/-- Witness for C7 at ε₀ = 0.4, N = 1. -/
theorem epsilon_decay_law_witness :
    (1 ≤ 1) ∧
    decayIter 1 (2/5) = max (1/20) ((2/5) * (199/200) ^ (1 : ℕ)) ∧
    decayIter 1 (2/5) = 199/500 :=
  ⟨le_refl 1, epsilon_decay_law (2/5) 1 (le_refl 1), by
    norm_num [decayIter, decayEpsilon]⟩

/-- C3 counterexample: for the scenario's learner attacker (reputation 100)
against the boss defender, the base damage before jitter is
int((20 + min(15, 100 // 10)) · 0.85) = 25, not the claimed
(35 + aggression·2) · 0.85 = 38 (the latter is the boss-as-attacker rule). -/
theorem learner_base_damage_counterexample :
    baseDamage dek beast = 25 ∧
    Int.tdiv ((35 + 5 * 2) * 85) 100 = 38 ∧
    baseDamage dek beast ≠ Int.tdiv ((35 + 5 * 2) * 85) 100 := by
  decide

/-- C3 amended: in the scenario (learner with reputation 100, stamina 50,
unencumbered, attacking the boss), the base damage before jitter and critical
roll is int((20 + min(15, reputation // 10)) · 0.85) = 25 — the
learner-attacker rule under the 0.85 boss-defender resistance — and for every
jitter draw and critical roll the resolution succeeds, final damage is floored
at 1, and the attacker's stamina afterwards is exactly 40. -/
theorem learner_vs_boss_damage_scenario (v : ℚ) (crit : Bool) :
    baseDamage dek beast = 25 ∧
    (resolveCombat dek beast v crit).1.success = true ∧
    1 ≤ (resolveCombat dek beast v crit).1.damage ∧
    (resolveCombat dek beast v crit).2.1.stamina = some 40 := by
  have hres : resolveCombat dek beast v crit =
      resolveCombatCore { dek with stamina := some 40 } beast v crit := by
    norm_num [resolveCombat, dek, beast]
  refine ⟨by decide, ?_, ?_, ?_⟩ <;> rw [hres]
  · exact resolveCombatCore_success _ _ _ _
  · exact one_le_resolveCombatCore_damage _ _ _ _
  · rw [resolveCombatCore_attacker_stamina]

/-- C4 counterexample: a tier-1 wildlife kill awards a worthy-prey delta of
20, not the claimed 15 + 5·(t−1) = 15. -/
theorem worthy_prey_tier1_counterexample :
    (awardHonourForDefeat { dek with honour := some 0 } creature1).2 = 20 ∧
    ((20 : Int) ≠ 15) := by
  decide

/-- C4 amended: for every honour-tracking attacker killing a wildlife defender
of threat tier t ≥ 1, the worthy-prey delta is 15 + 5·t (tier 1 → 20,
tier 2 → 25, tier 3 → 30). -/
theorem worthy_prey_delta_scales_with_tier (a d : CAgent) (h t : Int)
    (ha : a.honour = some h) (hd : d.className = "Wildlife")
    (ht : d.threat_level = some t) (h1 : 1 ≤ t) :
    (awardHonourForDefeat a d).2 = 15 + 5 * t := by
  have hctx : applyContext 15 "hunt_worthy_prey"
      { target := some ⟨"Wildlife", some t⟩ } = 15 + t * 5 := by
    simp [applyContext, h1]
  unfold awardHonourForDefeat applyUpdateHonour
  rcases hty : a.trophies with _ | ts <;>
    simp [hd, ht, ha, hty, h1, updateHonour, toHTarget, hctx,
      honourValue, HONOUR_VALUES] <;> ring

/-- Witness for C4 at tier 1: the awarded delta is 15 + 5·1 = 20. -/
theorem worthy_prey_delta_scales_with_tier_witness :
    ({ dek with honour := some 0 } : CAgent).honour = some 0 ∧
    creature1.className = "Wildlife" ∧ creature1.threat_level = some 1 ∧
    (1 : Int) ≤ 1 ∧
    (awardHonourForDefeat { dek with honour := some 0 } creature1).2 =
      15 + 5 * 1 :=
  ⟨rfl, rfl, rfl, by decide,
    worthy_prey_delta_scales_with_tier _ _ 0 1 rfl rfl rfl (by decide)⟩

/-- C5 (code bug evidence): with Berserker Rage unlocked and health below 200,
every decision tick inside the same activation window multiplies attack power
by 1.5 again — two consecutive ticks take it from 30 to 45 and then to 67,
exceeding 1.5 × 30 = 45, so the multiplier compounds. -/
theorem berserker_rage_compounds :
    (decideAction berserkBoss (some (1, 0)) 0 0 "N").2.2 = BBranch.berserker ∧
    (decideAction berserkBoss (some (1, 0)) 0 0 "N").1.attack_power = 45 ∧
    (decideAction (decideAction berserkBoss (some (1, 0)) 0 0 "N").1
        (some (1, 0)) 0 0 "N").1.attack_power = 67 ∧
    Int.tdiv (berserkBoss.attack_power * 3) 2 = 45 ∧ ((45 : Int) < 67) := by
  have h1 : updateCombatIntelligence berserkBoss = berserkBoss :=
    uci_id_of _ rfl rfl rfl (by decide)
  have hstep1 : decideAction berserkBoss (some (1, 0)) 0 0 "N" =
      ({ berserkBoss with
          predator_position_history := [(1, 0)], attack_power := 45 },
       BAction.attack (1, 0), BBranch.berserker) := by
    unfold decideAction
    simp only [h1]
    decide
  have h2 : updateCombatIntelligence { berserkBoss with
      predator_position_history := [(1, 0)], attack_power := 45 } =
      { berserkBoss with
        predator_position_history := [(1, 0)], attack_power := 45 } :=
    uci_id_of _ rfl rfl rfl (by decide)
  have hstep2 : decideAction { berserkBoss with
      predator_position_history := [(1, 0)], attack_power := 45 }
      (some (1, 0)) 0 0 "N" =
      ({ berserkBoss with
          predator_position_history := [(1, 0), (1, 0)], attack_power := 67 },
       BAction.attack (1, 0), BBranch.berserker) := by
    unfold decideAction
    simp only [h2]
    decide
  refine ⟨?_, ?_, ?_, by decide, by decide⟩
  · rw [hstep1]
  · rw [hstep1]
  · rw [hstep1]
    dsimp only
    rw [hstep2]

/-- C6: when either combatant is dead, or a stamina-tracking attacker has
stamina below 10, `resolve_combat` returns a failure with a reason and leaves
both agents unchanged; every successful resolution consumes exactly 10 stamina
from a stamina-tracking attacker. -/
theorem resolve_combat_preconditions_and_stamina (a b : CAgent) (v : ℚ)
    (c : Bool) :
    ((a.is_alive = false ∨ b.is_alive = false) →
      resolveCombat a b v c =
        ({ success := false, reason := "One or both combatants are not alive" },
         a, b)) ∧
    (∀ st, a.is_alive = true → b.is_alive = true → a.stamina = some st →
      st < 10 →
      resolveCombat a b v c =
        ({ success := false, reason := a.name ++ " is too exhausted to fight" },
         a, b)) ∧
    (∀ st, (resolveCombat a b v c).1.success = true → a.stamina = some st →
      (resolveCombat a b v c).2.1.stamina = some (st - 10)) := by
  refine ⟨?_, ?_, ?_⟩
  · intro h
    have hcond : ¬a.is_alive = true ∨ ¬b.is_alive = true := by
      rcases h with h | h <;> simp [h]
    unfold resolveCombat
    rw [if_pos hcond]
  · intro st ha hb hst hlt
    unfold resolveCombat
    rw [if_neg (by simp [ha, hb]), hst]
    dsimp only
    rw [if_pos hlt]
  · intro st hsucc hst
    by_cases hcond : (¬a.is_alive = true ∨ ¬b.is_alive = true)
    · exfalso
      unfold resolveCombat at hsucc
      rw [if_pos hcond] at hsucc
      simp at hsucc
    · by_cases hlt : st < 10
      · exfalso
        unfold resolveCombat at hsucc
        rw [if_neg hcond, hst] at hsucc
        dsimp only at hsucc
        rw [if_pos hlt] at hsucc
        simp at hsucc
      · have hres : resolveCombat a b v c =
            resolveCombatCore { a with stamina := some (st - 10) } b v c := by
          unfold resolveCombat
          rw [if_neg hcond, hst]
          dsimp only
          rw [if_neg hlt]
        rw [hres, resolveCombatCore_attacker_stamina]

/-- Witness for C6: a dead attacker and an exhausted attacker both fail with
no state change, and a successful attack by the fresh learner consumes exactly
10 stamina. -/
theorem resolve_combat_preconditions_and_stamina_witness :
    (deadDek.is_alive = false ∨ beast.is_alive = false) ∧
    resolveCombat deadDek beast 1 false =
      ({ success := false, reason := "One or both combatants are not alive" },
       deadDek, beast) ∧
    resolveCombat tiredDek beast 1 false =
      ({ success := false,
         reason := tiredDek.name ++ " is too exhausted to fight" },
       tiredDek, beast) ∧
    (resolveCombat dek beast 1 false).1.success = true ∧
    (resolveCombat dek beast 1 false).2.1.stamina = some (50 - 10) := by
  have hres : resolveCombat dek beast 1 false =
      resolveCombatCore { dek with stamina := some 40 } beast 1 false := by
    norm_num [resolveCombat, dek, beast]
  have hsucc : (resolveCombat dek beast 1 false).1.success = true := by
    rw [hres]
    exact resolveCombatCore_success _ _ _ _
  exact ⟨Or.inl rfl,
    (resolve_combat_preconditions_and_stamina deadDek beast 1 false).1
      (Or.inl rfl),
    (resolve_combat_preconditions_and_stamina tiredDek beast 1 false).2.1
      5 rfl rfl rfl (by decide),
    hsucc,
    (resolve_combat_preconditions_and_stamina dek beast 1 false).2.2
      50 hsucc rfl⟩

/-- C8: when the last 10 recorded opponent positions (after recording the
fresh reading) have distance variance < 4 and mean distance in (3,7) and two
circling detections were already counted, the decision increments the counter
to 3 and enters Counter-Circle, moving toward the cell extrapolated by the
vector from the 3rd-to-last to the most recent recorded position; with fewer
than 3 recorded positions the counter-circle maneuver falls back to direct
pursuit. -/
theorem counter_circle_detection_and_intercept (s : BossState)
    (tp : Int × Int) (rj : ℚ) (ri : Nat) (rd : String) :
    (∀ s1 : BossState,
      s1 = { updateCombatIntelligence s with
        predator_position_history :=
          appendBounded 30 (updateCombatIntelligence s).predator_position_history tp } →
      ¬s1.predator_position_history.length < 10 →
      circleVar s1 < 4 → 3 < circleAvg s1 → circleAvg s1 < 7 →
      2 ≤ s1.detected_circle →
      (decideAction s (some tp) rj ri rd).2.2 = BBranch.counterCircle ∧
      (decideAction s (some tp) rj ri rd).1.detected_circle =
        s1.detected_circle + 1 ∧
      (decideAction s (some tp) rj ri rd).2.1 =
        BAction.move (calcDirection s1.position
          (tp.1 + ((((lastN 3 s1.predator_position_history).getLast?).getD (0, 0)).1 -
            ((lastN 3 s1.predator_position_history).headD (0, 0)).1),
           tp.2 + ((((lastN 3 s1.predator_position_history).getLast?).getD (0, 0)).2 -
            ((lastN 3 s1.predator_position_history).headD (0, 0)).2)))) ∧
    (s.predator_position_history.length < 3 →
      counterCircleStrategy s tp = BAction.move (calcDirection s.position tp)) := by
  constructor
  · intro s1 hs1 h10 hvar havg1 havg2 hcnt
    have hdc : detectCircle s1 =
        ({ s1 with detected_circle := s1.detected_circle + 1 }, true) := by
      unfold detectCircle
      rw [if_neg h10, if_pos ⟨hvar, havg1, havg2⟩]
      dsimp only
      rw [if_pos (by omega : 3 ≤ s1.detected_circle + 1)]
    have hpn : predictNext { s1 with detected_circle := s1.detected_circle + 1 } tp =
        some
          (tp.1 + ((((lastN 3 s1.predator_position_history).getLast?).getD (0, 0)).1 -
            ((lastN 3 s1.predator_position_history).headD (0, 0)).1),
           tp.2 + ((((lastN 3 s1.predator_position_history).getLast?).getD (0, 0)).2 -
            ((lastN 3 s1.predator_position_history).headD (0, 0)).2)) := by
      unfold predictNext
      rw [if_neg (by simp only []; omega : ¬({ s1 with detected_circle := s1.detected_circle + 1 } : BossState).predator_position_history.length < 3)]
    unfold decideAction
    dsimp only
    rw [← hs1, hdc]
    dsimp only
    rw [if_pos rfl]
    refine ⟨rfl, rfl, ?_⟩
    unfold counterCircleStrategy
    rw [hpn]
  · intro h3
    unfold counterCircleStrategy predictNext
    rw [if_pos h3]

/-- Witness for C8: the circling boss with nine distance-5 readings and a
fresh one detects circling for the third time and moves east to intercept. -/
theorem counter_circle_detection_and_intercept_witness :
    (decideAction circledBoss (some (5, 0)) 0 0 "N").2.2 =
      BBranch.counterCircle ∧
    (decideAction circledBoss (some (5, 0)) 0 0 "N").1.detected_circle = 3 ∧
    (decideAction circledBoss (some (5, 0)) 0 0 "N").2.1 =
      BAction.move "E" := by
  have hdist : circleDistances circledTick = List.replicate 10 (5 : Int) := by
    decide
  have havg : circleAvg circledTick = 5 := by
    unfold circleAvg
    rw [hdist]
    norm_num [List.sum_replicate]
  have hvar : circleVar circledTick = 0 := by
    unfold circleVar
    simp only [hdist, havg]
    simp [List.map_replicate, List.sum_replicate]
  have h := (counter_circle_detection_and_intercept circledBoss (5, 0) 0 0 "N").1
    circledTick rfl (by decide) (by rw [hvar]; norm_num)
    (by rw [havg]; norm_num) (by rw [havg]; norm_num) (by decide)
  refine ⟨h.1, ?_, ?_⟩
  · rw [h.2.1]
    decide
  · rw [h.2.2]
    decide

/-- C9 counterexample: a lethal hit on the armored boss at health 5 heals
int(5·0.1) = 0, so the defeated boss is left at health 0, not health > 0. -/
theorem adaptive_armor_small_health_counterexample :
    wornBoss.adaptive_armor = true ∧ wornBoss.health ≤ 5 ∧
    (adaptiveTakeDamage wornBoss 5).health = 0 ∧
    (adaptiveTakeDamage wornBoss 5).is_alive = false := by
  decide

/-- C9 amended: a lethal damage event on an armored boss with pre-hit health
at least 10 first zeroes health and clears the alive flag, then applies the
10% armor heal of the damage actually dealt, leaving health
int(health·0.1) > 0 while the alive flag stays false; no boss operation ever
sets the alive flag back to true, so a defeated boss permanently ends with
positive health. -/
theorem adaptive_armor_lethal_heal (s : BossState) (d : Int)
    (harm : s.adaptive_armor = true) (h10 : 10 ≤ s.health)
    (hmax : s.health ≤ s.max_health) (hdmg : s.health ≤ d) :
    (adaptiveTakeDamage s d).health = Int.tdiv s.health 10 ∧
    0 < (adaptiveTakeDamage s d).health ∧
    (adaptiveTakeDamage s d).is_alive = false ∧
    ∀ ops, (runBoss (adaptiveTakeDamage s d) ops).is_alive = false := by
  have htd : Int.tdiv s.health 10 = s.health / 10 :=
    Int.tdiv_eq_ediv (by omega) (by omega)
  have hle : Int.tdiv s.health 10 ≤ s.max_health := by rw [htd]; omega
  have hpos : 0 < Int.tdiv s.health 10 := by rw [htd]; omega
  have key : (adaptiveTakeDamage s d).health = Int.tdiv s.health 10 ∧
      (adaptiveTakeDamage s d).is_alive = false := by
    unfold adaptiveTakeDamage adversaryTakeDamage
    dsimp only
    rw [if_pos (show s.health - d ≤ 0 by omega)]
    simp [harm, min_eq_right hle]
  refine ⟨key.1, key.1 ▸ hpos, key.2, fun ops => runBoss_dead _ ops key.2⟩

/-- Witness for C9: a 250-damage hit on the armored boss at health 200 leaves
it at health 20 with the alive flag permanently false. -/
theorem adaptive_armor_lethal_heal_witness :
    armoredBoss.adaptive_armor = true ∧ (10 : Int) ≤ armoredBoss.health ∧
    armoredBoss.health ≤ armoredBoss.max_health ∧ armoredBoss.health ≤ 250 ∧
    ((adaptiveTakeDamage armoredBoss 250).health =
        Int.tdiv armoredBoss.health 10 ∧
      0 < (adaptiveTakeDamage armoredBoss 250).health ∧
      (adaptiveTakeDamage armoredBoss 250).is_alive = false ∧
      ∀ ops, (runBoss (adaptiveTakeDamage armoredBoss 250) ops).is_alive =
        false) :=
  ⟨rfl, by decide, by decide, by decide,
    adaptive_armor_lethal_heal armoredBoss 250 rfl (by decide) (by decide)
      (by decide)⟩

/-- C10: starting from a freshly constructed adaptive boss, after any sequence
of damage events, heals and decision ticks every attack-pattern record still
has `retreated = false`, the hit-and-run detector reports false, and no
decision ever takes the Counter-HitRun branch. -/
theorem hit_and_run_never_detected (pos : Int × Int) (h0 : Int) (tr : Int)
    (ops : List BossOp) (np : Option (Int × Int)) (rj : ℚ) (ri : Nat)
    (rd : String) :
    (∀ r ∈ (runBoss (initBoss pos h0 tr) ops).attack_pattern_memory,
        r.retreated = false) ∧
    (detectHitRun (runBoss (initBoss pos h0 tr) ops)).2 = false ∧
    (decideAction (runBoss (initBoss pos h0 tr) ops) np rj ri rd).2.2 ≠
      BBranch.counterHitRun := by
  have hclean : memClean (runBoss (initBoss pos h0 tr) ops) :=
    runBoss_memClean _ ops (by intro r hr; simp [initBoss] at hr)
  exact ⟨hclean, by rw [detectHitRun_clean _ hclean],
    decideAction_no_hitrun _ hclean np rj ri rd⟩

/-- Witness for C10 after one 50-damage event on a fresh boss. -/
theorem hit_and_run_never_detected_witness :
    (∀ r ∈ (runBoss (initBoss (0, 0) 500 5)
        [BossOp.damage 50]).attack_pattern_memory, r.retreated = false) ∧
    (detectHitRun (runBoss (initBoss (0, 0) 500 5) [BossOp.damage 50])).2 =
      false ∧
    (decideAction (runBoss (initBoss (0, 0) 500 5) [BossOp.damage 50])
        (some (1, 0)) 0 0 "N").2.2 ≠ BBranch.counterHitRun :=
  hit_and_run_never_detected (0, 0) 500 5 [BossOp.damage 50] (some (1, 0)) 0 0
    "N"

end Predator
